import Mathlib

/-!
Shallow embedding of the signal-conditioning and classification pipeline of
the Sound-detect-Service repository, with proofs of the properties its
design documentation states.

Conventions used throughout:
* Python floats are modelled as rationals; every numeric literal is copied
  from the source.
* A comparison `sqrt x < c` from the source (with `x, c ≥ 0`) is embedded as
  `x < c ^ 2`; where the square-root value itself is consumed it is an
  explicit parameter of the embedding.
* External collaborators (the CNN inference engine, the scipy filter kernels,
  the USB transport) are parameters of the functions that invoke them, as the
  design treats them as opaque collaborators.
-/

namespace SoundDetect

/-! ## AudioProcessor (src/audio_processor.py)

Constants set in `AudioProcessor.__init__` (lines 28-43). -/

def agc_max_gain : ℚ := 15

def agc_target_rms : ℚ := 12 / 100

def agc_smooth : ℚ := 1 / 10

def gate_threshold : ℚ := 12 / 1000

def gate_ratio : ℚ := 10 / 100

/-- The `1e-9` guard added to the mean square before the square root in
`apply_agc` (line 71), and to the denominator of the target gain (line 79). -/
def rms_epsilon : ℚ := 1 / 1000000000

/-- Lines 73-86 of `apply_agc`: the target gain and the blend factor chosen
for a frame, as a function of the post-gate RMS of the frame.  `maxLin`
stands for `10 ** (agc_max_gain / 20)` (line 81); that value is the
irrational number `10 ^ (3/4) ≈ 5.623`, so it is kept as a parameter and
each theorem assumes only what that value satisfies (`1 ≤ maxLin`). -/
def agcTargetAndSmooth (maxLin rms : ℚ) : ℚ × ℚ :=
  if rms < gate_threshold then
    (gate_ratio, 2 / 10)
  else
    let t0 := agc_target_rms / (rms + rms_epsilon)
    let t1 := if maxLin < t0 then maxLin else t0
    let t2 := if t1 < 1 then 1 else t1
    (t2, agc_smooth)

/-- Line 88 of `apply_agc`: the exponential-smoothing update of
`current_gain`. -/
def agcStep (maxLin g rms : ℚ) : ℚ :=
  let ts := agcTargetAndSmooth maxLin rms
  g * (1 - ts.2) + ts.1 * ts.2

/-- `np.mean(chunk ** 2)` for a frame (division by the length; `0` for the
empty frame, matching the embedding use sites where the frame is nonempty). -/
def meanSq (chunk : List ℚ) : ℚ :=
  (chunk.map fun x => x * x).sum / chunk.length

/-- `np.clip(x, -1.0, 1.0)` applied to one sample (line 90). -/
def clampSample (x : ℚ) : ℚ :=
  max (-1) (min 1 x)

/-- `apply_agc` (lines 67-91) on a frame, with `agc_enabled = True` as set in
the constructor.  The source compares `chunk_rms = sqrt(meanSq + 1e-9)`
against `gate_threshold`; both sides being nonnegative, this is embedded as
the equivalent comparison of squares.  The square-root value consumed by the
speech-regime division is supplied by the `sqrtFn` parameter (it is only
evaluated in that regime).  Returns the new `current_gain` together with the
processed frame. -/
def applyAgc (sqrtFn : ℚ → ℚ) (maxLin g : ℚ) (chunk : List ℚ) : ℚ × List ℚ :=
  let ms := meanSq chunk + rms_epsilon
  let ts :=
    if ms < gate_threshold ^ 2 then
      (gate_ratio, (2 : ℚ) / 10)
    else
      let rms := sqrtFn ms
      let t0 := agc_target_rms / (rms + rms_epsilon)
      let t1 := if maxLin < t0 then maxLin else t0
      let t2 := if t1 < 1 then 1 else t1
      (t2, agc_smooth)
  let g2 := g * (1 - ts.2) + ts.1 * ts.2
  (g2, chunk.map fun x => clampSample (x * g2))

/-- The mutable state of one `AudioProcessor` instance: the second-order
section delay state of the bandpass filter and the AGC gain scalar. -/
structure ProcessorState where
  sos_state : List ℚ
  current_gain : ℚ
  deriving DecidableEq, Repr

/-- `process` (lines 93-100).  The bandpass filter kernel (`signal.sosfilt`,
taking and returning the delay state) and the spectral gate are external
numeric kernels and are parameters; the guard, the staging order, and the
AGC are embedded concretely.  The guard of line 94 is exactly
`len(chunk) == 0`. -/
def process (bandpass : List ℚ → List ℚ → List ℚ × List ℚ)
    (spectralGate : List ℚ → List ℚ) (sqrtFn : ℚ → ℚ) (maxLin : ℚ)
    (s : ProcessorState) (chunk : List ℚ) : ProcessorState × List ℚ :=
  if chunk.length = 0 then (s, chunk)
  else
    let fb := bandpass s.sos_state chunk
    let clean := spectralGate fb.1
    let gp := applyAgc sqrtFn maxLin s.current_gain clean
    ({ sos_state := fb.2, current_gain := gp.1 }, gp.2)

/-! ## AudioClassifier, rule-based part (src/audio_classifier.py, active
definitions starting at line 339) -/

/-- The `SoundType` enumeration (lines 377-382). -/
inductive SoundType where
  | unknown
  | silence
  | speech
  | music
  | noise
  deriving DecidableEq, Repr

/-- Thresholds local to `classify_sound` (lines 627-634). -/
def SILENCE_RMS_TH : ℚ := 15 / 10000

def SPEECH_RMS_MIN : ℚ := 15 / 10000

def SPEECH_RMS_MAX : ℚ := 2 / 100

def MUSIC_RMS_MIN : ℚ := 1 / 100

def SPEECH_ZCR_MIN : ℚ := 1 / 100

def SPEECH_ZCR_MAX : ℚ := 2 / 10

def MUSIC_ZCR_MIN : ℚ := 2 / 100

/-- `classify_sound` (lines 613-648), as a function of the three features it
reads from `extract_features` (RMS, zero-crossing rate, spectral centroid;
the bandwidth feature is computed but not consulted). -/
def classify_sound (rms zcr centroid : ℚ) : SoundType :=
  if rms < SILENCE_RMS_TH then .silence
  else if SPEECH_RMS_MIN ≤ rms ∧ rms ≤ SPEECH_RMS_MAX ∧
      SPEECH_ZCR_MIN ≤ zcr ∧ zcr ≤ SPEECH_ZCR_MAX then .speech
  else if MUSIC_RMS_MIN ≤ rms ∧ MUSIC_ZCR_MIN ≤ zcr ∧ 1000 < centroid then .music
  else .noise

/-- The sound-type component of `classify_audio` (lines 692-698): when no
audio chunk could be read the result is `UNKNOWN`, otherwise the rule-based
classification of the features of the chunk that was read. -/
def classifyAudioType (reading : Option (ℚ × ℚ × ℚ)) : SoundType :=
  match reading with
  | none => .unknown
  | some (rms, zcr, centroid) => classify_sound rms zcr centroid

/-! ## AudioClassifier, environment-model part (src/audio_classifier.py)

Configuration constants, lines 353-368. -/

def DEFAULT_RATE : ℕ := 16000

def DEFAULT_CHUNK : ℕ := 1024

/-- `ENV_SAMPLES = int(DEFAULT_RATE * ENV_DURATION)` with `ENV_DURATION = 5.0`
(line 360): the rolling-buffer capacity, 80000 samples. -/
def ENV_SAMPLES : ℕ := 80000

/-- `ENV_WINDOW_SAMPLES = int(DEFAULT_RATE * ENV_WINDOW_DURATION)` with
`ENV_WINDOW_DURATION = 2.0` (line 364): the inference window, 32000
samples. -/
def ENV_WINDOW_SAMPLES : ℕ := 32000

def ENV_MIN_RMS : ℚ := 5 / 1000

def ENV_CONF_THRESHOLD : ℚ := 55 / 100

/-- The fixed, ordered label set of the inference engine (lines 389-401). -/
def ENV_CLASSES : List String :=
  ["cat", "clapping", "clock_alarm", "coughing", "dog", "door_wood_knock",
   "laughing", "rain", "unknown", "water_drops", "wind"]

/-- `np.argmax` over a probability list: index of the first occurrence of the
maximum (`0` on the empty list).  `i` is the index of the head of the
remaining list, `bi`/`bv` the best index and value seen so far. -/
def argmaxAux (i bi : ℕ) (bv : ℚ) : List ℚ → ℕ
  | [] => bi
  | x :: xs => if bv < x then argmaxAux (i + 1) i x xs else argmaxAux (i + 1) bi bv xs

def argmaxIdx : List ℚ → ℕ
  | [] => 0
  | x :: xs => argmaxAux 1 0 x xs

/-- The tail of `EnvSoundModel.predict_from_waveform` (lines 463-466): from
the probability vector produced by the CNN, the label of the top class and
its probability. -/
def predictFromProbs (probs : List ℚ) : String × ℚ :=
  let idx := argmaxIdx probs
  (ENV_CLASSES.getD idx "", probs.getD idx 0)

/-- The buffer-append step of `_update_env_buffer_and_predict`
(lines 661-669): concatenate the new chunk (the `size == 0` branch and the
`concatenate` branch coincide with list append), then keep at most the most
recent `ENV_SAMPLES` samples (`self.env_buffer[-ENV_SAMPLES:]`). -/
def updateEnvBuffer (buf chunk : List ℚ) : List ℚ :=
  let b := buf ++ chunk
  if ENV_SAMPLES < b.length then b.drop (b.length - ENV_SAMPLES) else b

/-- The result of one `_update_env_buffer_and_predict` call: the new rolling
buffer, the returned label/confidence pair, and how many times the inference
engine was invoked during the call. -/
structure PredictResult where
  buffer : List ℚ
  label : Option String
  conf : ℚ
  inferCalls : ℕ
  deriving Repr

/-- `_update_env_buffer_and_predict` (lines 652-679).  The CNN is the
external collaborator `model : List ℚ → List ℚ` mapping the window to the
probability vector (`self.env_model.predict_from_waveform`); `none` models a
classifier whose model failed to load (line 658).  The guard order is that of
the source: model presence, append and trim, minimum length, then exactly
one inference on the most recent `ENV_WINDOW_SAMPLES` samples. -/
def updateEnvBufferAndPredict (envModel : Option (List ℚ → List ℚ))
    (buf chunk : List ℚ) : PredictResult :=
  match envModel with
  | none => ⟨buf, none, 0, 0⟩
  | some model =>
    let b := updateEnvBuffer buf chunk
    if b.length < ENV_WINDOW_SAMPLES then ⟨b, none, 0, 0⟩
    else
      let segment := b.drop (b.length - ENV_WINDOW_SAMPLES)
      let lc := predictFromProbs (model segment)
      ⟨b, some lc.1, lc.2, 1⟩

/-- The environment-label part of `classify_audio` (lines 701-716): the
model is consulted only when it is present, the rule-based type is not
`SILENCE`, and the RMS exceeds `ENV_MIN_RMS`; the returned confidence is the
raw model confidence whenever a prediction was made, and the label is
reported only when that confidence reaches `ENV_CONF_THRESHOLD`.  Returns
(new buffer, `env_label`, `env_conf`). -/
def classifyAudioEnv (envModel : Option (List ℚ → List ℚ)) (buf : List ℚ)
    (soundType : SoundType) (rms : ℚ) (chunk : List ℚ) :
    List ℚ × Option String × ℚ :=
  if envModel.isSome ∧ soundType ≠ .silence ∧ ENV_MIN_RMS < rms then
    let r := updateEnvBufferAndPredict envModel buf chunk
    match r.label with
    | none => (r.buffer, none, 0)
    | some lab =>
      (r.buffer, if ENV_CONF_THRESHOLD ≤ r.conf then some lab else none, r.conf)
  else (buf, none, 0)

/-- Modelled from the spec (section 4.3, rule 3), for comparison with the
code: the elementwise mean of a history of probability vectors.  This
smoothing mechanism is what claim C2 attributes to the code; no such history
exists in the source. -/
def elementwiseMean (hist : List (List ℚ)) : List ℚ :=
  match hist with
  | [] => []
  | h :: t => (t.foldl (fun acc v => acc.zipWith (· + ·) v) h).map
      (· / (hist.length : ℚ))

/-- Modelled from the spec (section 4.3, rule 3): smoothed label and
confidence are the argmax of the elementwise mean of the history and the
mean probability of that class. -/
def specSmoothedLabelConf (hist : List (List ℚ)) : String × ℚ :=
  predictFromProbs (elementwiseMean hist)

/-- A concrete probability vector over the 11 classes: full confidence on
class 0. -/
def probsA : List ℚ := [1, 0, 0, 0, 0, 0, 0, 0, 0, 0, 0]

/-- A concrete probability vector over the 11 classes: confidence 3/5 on
class 0, 2/5 on class 1. -/
def probsB : List ℚ := [3 / 5, 2 / 5, 0, 0, 0, 0, 0, 0, 0, 0, 0]

/-- A concrete instantiation of the external CNN used to drive two distinct
successive predictions through the pipeline: it answers `probsB` when the
window contains a sample 1/2 and `probsA` otherwise. -/
def toyModel (y : List ℚ) : List ℚ :=
  if (1 : ℚ) / 2 ∈ y then probsB else probsA

/-! ## Tuning, the device protocol decoder (src/sound_detector.py) -/

/-- The per-parameter type table of `Tuning.read` (lines 25-33):
parameters 19, 21 and 22 are integers, 6 is a float, and the lookup default
is integer. -/
def tuningIsInt (paramId : ℕ) : Bool :=
  paramId ≠ 6

/-- The per-parameter command-byte offset table (lines 35-42), default 0. -/
def tuningOffset (paramId : ℕ) : ℕ :=
  if paramId = 19 then 32
  else if paramId = 21 then 0
  else if paramId = 22 then 22
  else if paramId = 6 then 3
  else 0

/-- The command byte of `Tuning.read` (lines 44-46):
`cmd = 0x80 | offset`, with `0x40` added for integer-typed parameters. -/
def tuningCmd (paramId : ℕ) : ℕ :=
  (0x80 ||| tuningOffset paramId) ||| (if tuningIsInt paramId then 0x40 else 0)

/-- Four little-endian bytes as one signed 32-bit integer, as
`struct.unpack('ii', ...)` interprets each half of the 8-byte response. -/
def int32FromBytes (b0 b1 b2 b3 : ℕ) : ℤ :=
  let n := b0 + 256 * b1 + 65536 * b2 + 16777216 * b3
  if n < 2 ^ 31 then (n : ℤ) else (n : ℤ) - 2 ^ 32

/-- The decoding tail of `Tuning.read` (lines 48-61).  The USB transfer is
external; its outcome is the parameter `response` (`none` for a transport
failure, which the bare `except` of line 60 turns into a `None` return; a
response that is not exactly 8 bytes makes `struct.unpack` raise, which the
same handler also turns into `None`).  An integer-typed parameter returns
the first signed 32-bit integer; a float-typed one returns
`mantissa * 2 ** exponent` from the two integers. -/
def tuningRead (paramId : ℕ) (response : Option (List ℕ)) : Option ℚ :=
  match response with
  | none => none
  | some bytes =>
    match bytes with
    | [b0, b1, b2, b3, b4, b5, b6, b7] =>
      let m := int32FromBytes b0 b1 b2 b3
      let e := int32FromBytes b4 b5 b6 b7
      if tuningIsInt paramId then some (m : ℚ)
      else some ((m : ℚ) * (2 : ℚ) ^ e)
    | _ => none

/-! ## Helper lemmas -/

lemma agcTargetAndSmooth_target_bounds (maxLin rms : ℚ) (hM : 1 ≤ maxLin) :
    0 ≤ (agcTargetAndSmooth maxLin rms).1 ∧
      (agcTargetAndSmooth maxLin rms).1 ≤ maxLin := by
  unfold agcTargetAndSmooth
  split
  · refine ⟨by norm_num [gate_ratio], ?_⟩
    simp only [gate_ratio]
    linarith
  · dsimp only
    constructor
    · split
      · split
        · norm_num
        · linarith
      · split
        · norm_num
        · linarith
    · split
      · split
        · linarith
        · linarith
      · split
        · linarith
        · linarith

lemma agcTargetAndSmooth_smooth_bounds (maxLin rms : ℚ) :
    0 ≤ (agcTargetAndSmooth maxLin rms).2 ∧
      (agcTargetAndSmooth maxLin rms).2 ≤ 1 := by
  unfold agcTargetAndSmooth
  split
  · norm_num
  · norm_num [agc_smooth]

lemma agcStep_bounds (maxLin g rms : ℚ) (hM : 1 ≤ maxLin) (h0 : 0 ≤ g)
    (h1 : g ≤ maxLin) :
    0 ≤ agcStep maxLin g rms ∧ agcStep maxLin g rms ≤ maxLin := by
  obtain ⟨ht0, ht1⟩ := agcTargetAndSmooth_target_bounds maxLin rms hM
  obtain ⟨hs0, hs1⟩ := agcTargetAndSmooth_smooth_bounds maxLin rms
  have hstep : agcStep maxLin g rms =
      g * (1 - (agcTargetAndSmooth maxLin rms).2) +
        (agcTargetAndSmooth maxLin rms).1 * (agcTargetAndSmooth maxLin rms).2 := rfl
  rw [hstep]
  constructor
  · nlinarith
  · nlinarith

lemma classify_sound_cases (rms zcr centroid : ℚ) :
    classify_sound rms zcr centroid = .silence ∨
    classify_sound rms zcr centroid = .speech ∨
    classify_sound rms zcr centroid = .music ∨
    classify_sound rms zcr centroid = .noise := by
  unfold classify_sound
  split
  · exact Or.inl rfl
  split
  · exact Or.inr (Or.inl rfl)
  split
  · exact Or.inr (Or.inr (Or.inl rfl))
  · exact Or.inr (Or.inr (Or.inr rfl))

/-! ## Claims about the adaptive gain control -/

/-- Claim C3: for every frame whose post-gate RMS is below the gate
threshold, `apply_agc` sets the target gain to the fixed gate ratio 0.10;
in particular the low-energy regime never produces a target gain above 1. -/
theorem agc_low_energy_target_is_gate_ratio (maxLin rms : ℚ)
    (h : rms < gate_threshold) :
    (agcTargetAndSmooth maxLin rms).1 = gate_ratio ∧
      (agcTargetAndSmooth maxLin rms).1 ≤ 1 := by
  unfold agcTargetAndSmooth
  rw [if_pos h]
  norm_num [gate_ratio]

/-- Witness for C3 at the concrete silent frame RMS 0. -/
theorem agc_low_energy_target_is_gate_ratio_witness :
    (0 : ℚ) < gate_threshold ∧ (agcTargetAndSmooth 2 0).1 = gate_ratio ∧
      (agcTargetAndSmooth 2 0).1 ≤ 1 :=
  ⟨by norm_num [gate_threshold],
   agc_low_energy_target_is_gate_ratio 2 0 (by norm_num [gate_threshold])⟩

/-- Claim C4: starting from construction (`current_gain = 1.0`, which
`reset_states` also restores), the gain scalar is updated only by the
exponential-smoothing rule `g * (1 - α) + target * α` (first conjunct is
that equation, read off the embedding of line 88), and along every sequence
of processed frames it stays within `[0, maxLin]`, where `maxLin` stands for
`10 ** (agc_max_gain / 20) = 10 ^ (3/4) ≈ 5.623`; only `1 ≤ maxLin` is
used. -/
theorem agc_gain_exponential_smoothing_invariant (maxLin : ℚ)
    (hM : 1 ≤ maxLin) :
    (∀ g rms, agcStep maxLin g rms =
        g * (1 - (agcTargetAndSmooth maxLin rms).2) +
          (agcTargetAndSmooth maxLin rms).1 * (agcTargetAndSmooth maxLin rms).2) ∧
    ∀ rmsSeq : List ℚ, 0 ≤ rmsSeq.foldl (agcStep maxLin) 1 ∧
      rmsSeq.foldl (agcStep maxLin) 1 ≤ maxLin := by
  refine ⟨fun g rms => rfl, fun rmsSeq => ?_⟩
  have key : ∀ (l : List ℚ) (g : ℚ), 0 ≤ g → g ≤ maxLin →
      0 ≤ l.foldl (agcStep maxLin) g ∧ l.foldl (agcStep maxLin) g ≤ maxLin := by
    intro l
    induction l with
    | nil => exact fun g h0 h1 => ⟨h0, h1⟩
    | cons a t ih =>
      intro g h0 h1
      obtain ⟨s0, s1⟩ := agcStep_bounds maxLin g a hM h0 h1
      exact ih _ s0 s1
  exact key rmsSeq 1 (by norm_num) hM

/-- Witness for C4 with `maxLin = 6` and a two-frame RMS sequence. -/
theorem agc_gain_exponential_smoothing_invariant_witness :
    0 ≤ [(0 : ℚ), 1 / 2].foldl (agcStep 6) 1 ∧
      [(0 : ℚ), 1 / 2].foldl (agcStep 6) 1 ≤ 6 :=
  (agc_gain_exponential_smoothing_invariant 6 (by norm_num)).2 [0, 1 / 2]

/-! ## Claims about the rule-based classifier -/

/-- Claim C8 counterexample: the claim reads the "gate threshold" as
`AudioProcessor.gate_threshold = 0.012` (its cited source), but
`classify_sound` tests RMS against its own silence threshold 0.0015.  A
frame with RMS 0.005 (below the gate threshold) and zero-crossing rate 0.05
is classified SPEECH, not SILENCE.  Such a frame exists, e.g. a sine tone of
amplitude about 0.007 at a moderate frequency. -/
theorem classify_sound_gate_threshold_counterexample :
    (5 : ℚ) / 1000 < gate_threshold ∧
      classify_sound (5 / 1000) (5 / 100) 500 = .speech ∧
      SoundType.speech ≠ SoundType.silence := by
  refine ⟨by norm_num [gate_threshold], ?_, by decide⟩
  unfold classify_sound
  rw [if_neg (by norm_num [SILENCE_RMS_TH]), if_pos]
  refine ⟨by norm_num [SPEECH_RMS_MIN], by norm_num [SPEECH_RMS_MAX],
    by norm_num [SPEECH_ZCR_MIN], by norm_num [SPEECH_ZCR_MAX]⟩

/-- Claim C8 amended: for every frame whose RMS is below the silence
threshold of `classify_sound` itself (`SILENCE_RMS_TH = 0.0015`), the
rule-based classifier reports SILENCE. -/
theorem classify_sound_silence_below_own_threshold (rms zcr centroid : ℚ)
    (h : rms < SILENCE_RMS_TH) :
    classify_sound rms zcr centroid = .silence := by
  unfold classify_sound
  rw [if_pos h]

/-- Witness for the amended C8 at RMS 0.001. -/
theorem classify_sound_silence_below_own_threshold_witness :
    (1 : ℚ) / 1000 < SILENCE_RMS_TH ∧
      classify_sound (1 / 1000) (5 / 100) 500 = .silence :=
  ⟨by norm_num [SILENCE_RMS_TH],
   classify_sound_silence_below_own_threshold (1 / 1000) (5 / 100) 500
     (by norm_num [SILENCE_RMS_TH])⟩

/-- Claim C10: `classify_sound` always answers one of SILENCE, SPEECH,
MUSIC, NOISE — never UNKNOWN — and at the `classify_audio` interface the
UNKNOWN type appears exactly when no audio chunk could be read. -/
theorem classify_sound_never_unknown :
    (∀ rms zcr centroid : ℚ,
      classify_sound rms zcr centroid = .silence ∨
      classify_sound rms zcr centroid = .speech ∨
      classify_sound rms zcr centroid = .music ∨
      classify_sound rms zcr centroid = .noise) ∧
    ∀ reading, classifyAudioType reading = .unknown ↔ reading = none := by
  refine ⟨classify_sound_cases, fun reading => ?_⟩
  match reading with
  | none => simp [classifyAudioType]
  | some (rms, zcr, centroid) =>
    rcases classify_sound_cases rms zcr centroid with h | h | h | h <;>
      simp [classifyAudioType, h]

/-! ## Claim about the rolling buffer -/

lemma updateEnvBuffer_length_le (buf chunk : List ℚ) :
    (updateEnvBuffer buf chunk).length ≤ ENV_SAMPLES := by
  simp only [updateEnvBuffer]
  split <;> rename_i h
  · rw [List.length_drop]
    omega
  · omega

/-- Claim C7: after every append the rolling buffer holds at most
`ENV_SAMPLES` (5 s at 16 kHz) samples; the kept part is a suffix of the
concatenation (oldest samples are discarded first), of length exactly
`min (old + new) ENV_SAMPLES`; consequently any sequence of appends starting
from the empty buffer stays within capacity. -/
theorem env_buffer_trim_invariant :
    (∀ buf chunk : List ℚ,
      (updateEnvBuffer buf chunk).length =
          min (buf.length + chunk.length) ENV_SAMPLES ∧
        (updateEnvBuffer buf chunk).IsSuffix (buf ++ chunk)) ∧
    ∀ chunks : List (List ℚ),
      (chunks.foldl updateEnvBuffer []).length ≤ ENV_SAMPLES := by
  constructor
  · intro buf chunk
    constructor
    · simp only [updateEnvBuffer]
      split <;> rename_i h
      · rw [List.length_drop]
        rw [List.length_append] at h ⊢
        omega
      · rw [List.length_append] at h ⊢
        omega
    · simp only [updateEnvBuffer]
      split
      · exact List.drop_suffix _ _
      · exact List.suffix_refl _
  · intro chunks
    have key : ∀ (cs : List (List ℚ)) (b : List ℚ), b.length ≤ ENV_SAMPLES →
        (cs.foldl updateEnvBuffer b).length ≤ ENV_SAMPLES := by
      intro cs
      induction cs with
      | nil => exact fun b h => h
      | cons c t ih => exact fun b _ => ih _ (updateEnvBuffer_length_le b c)
    exact key chunks [] (by simp [ENV_SAMPLES])

/-! ## Claims about `process` and degenerate frames -/

/-- Claim C5 counterexample: the guard of `process` (line 94) is only
`len(chunk) == 0`, so an all-zeros frame of positive length is NOT
short-circuited: it runs the full chain, and the AGC step reassigns
`current_gain`.  The conditioning collaborators are instantiated with
identity stages, the most charitable reading of a no-op on a degenerate
frame (the all-zero frame passes the bandpass and the spectral gate
unchanged); even then the gain moves from 1.0 to
`1 * (1 - 0.2) + 0.10 * 0.2 = 0.82`, because the all-zero post-gate frame
has `mean(chunk ** 2) = 0`, hence an RMS of `sqrt(1e-9) < 0.012`, putting
the AGC in its low-energy regime. -/
theorem process_all_zero_frame_updates_gain :
    (process (fun st c => (c, st)) id (fun _ => 0) 6
        ⟨[0, 0, 0, 0], 1⟩ [0, 0, 0, 0]).1.current_gain = 82 / 100 ∧
      ((82 : ℚ) / 100) ≠ 1 := by
  constructor
  · norm_num [process, applyAgc, meanSq, rms_epsilon, gate_threshold, gate_ratio]
  · norm_num

/-- Claim C5 amended: only a length-zero frame short-circuits `process` to a
no-op return, which leaves both `sos_state` and `current_gain` unchanged
(for every instantiation of the conditioning collaborators, which are not
even invoked); an all-zeros frame of positive length instead runs the full
chain and has its gain state updated by the AGC smoothing step. -/
theorem process_empty_frame_noop
    (bandpass : List ℚ → List ℚ → List ℚ × List ℚ)
    (spectralGate : List ℚ → List ℚ) (sqrtFn : ℚ → ℚ) (maxLin : ℚ)
    (s : ProcessorState) (chunk : List ℚ) (h : chunk.length = 0) :
    process bandpass spectralGate sqrtFn maxLin s chunk = (s, chunk) := by
  unfold process
  rw [if_pos h]

/-- Witness for the amended C5 at the concrete empty frame. -/
theorem process_empty_frame_noop_witness :
    process (fun st c => (c, st)) id (fun _ => 0) 6 ⟨[1], 1⟩ [] =
      (⟨[1], 1⟩, []) :=
  process_empty_frame_noop (fun st c => (c, st)) id (fun _ => 0) 6
    ⟨[1], 1⟩ [] rfl

/-! ## Claim about the device protocol decoder -/

/-- Claim C9: `Tuning.read` interprets the 8-byte response as two signed
32-bit integers, returning the first for an integer-typed parameter and
`mantissa * 2 ** exponent` for a float-typed one; the synthetic response
with mantissa 3 and exponent 2 for float-typed parameter 6 decodes to 12;
the sign bit is honoured (`FF FF FF FF` decodes to -1) and a negative
exponent yields a fraction; any transport failure, including a response of
the wrong length, yields `None` instead of an exception. -/
theorem tuning_read_decode (paramId b0 b1 b2 b3 b4 b5 b6 b7 : ℕ) :
    tuningRead paramId none = none ∧
    tuningRead paramId (some [b0, b1, b2, b3, b4, b5, b6, b7]) =
      some (if tuningIsInt paramId then ((int32FromBytes b0 b1 b2 b3 : ℤ) : ℚ)
        else (int32FromBytes b0 b1 b2 b3 : ℚ) *
          (2 : ℚ) ^ int32FromBytes b4 b5 b6 b7) ∧
    tuningRead 6 (some [3, 0, 0, 0, 2, 0, 0, 0]) = some 12 ∧
    tuningRead 21 (some [255, 255, 255, 255, 0, 0, 0, 0]) = some (-1) ∧
    tuningRead 6 (some [1, 0, 0, 0, 255, 255, 255, 255]) = some (1 / 2) ∧
    tuningRead 21 (some [1, 2, 3]) = none := by
  have hm3 : int32FromBytes 3 0 0 0 = 3 := by norm_num [int32FromBytes]
  have hm1 : int32FromBytes 1 0 0 0 = 1 := by norm_num [int32FromBytes]
  have he2 : int32FromBytes 2 0 0 0 = 2 := by norm_num [int32FromBytes]
  have hneg : int32FromBytes 255 255 255 255 = -1 := by
    norm_num [int32FromBytes]
  refine ⟨rfl, ?_, ?_, ?_, ?_, rfl⟩
  · cases h : tuningIsInt paramId <;> simp [tuningRead, h]
  · simp [tuningRead, tuningIsInt, hm3, he2]
    norm_num
  · simp [tuningRead, tuningIsInt, hneg]
  · simp [tuningRead, tuningIsInt, hm1, hneg]

/-! ## Claims about the inference scheduling of the rolling window -/

lemma updateEnvBuffer_no_trim (buf chunk : List ℚ)
    (h : buf.length + chunk.length ≤ ENV_SAMPLES) :
    updateEnvBuffer buf chunk = buf ++ chunk := by
  simp only [updateEnvBuffer]
  rw [if_neg]
  rw [List.length_append]
  omega

lemma updateEnvBufferAndPredict_full (model : List ℚ → List ℚ)
    (buf chunk : List ℚ) (h1 : buf.length + chunk.length ≤ ENV_SAMPLES)
    (h2 : ENV_WINDOW_SAMPLES ≤ buf.length + chunk.length) :
    updateEnvBufferAndPredict (some model) buf chunk =
      ⟨buf ++ chunk,
       some (predictFromProbs (model ((buf ++ chunk).drop
         (buf.length + chunk.length - ENV_WINDOW_SAMPLES)))).1,
       (predictFromProbs (model ((buf ++ chunk).drop
         (buf.length + chunk.length - ENV_WINDOW_SAMPLES)))).2, 1⟩ := by
  simp only [updateEnvBufferAndPredict, updateEnvBuffer_no_trim buf chunk h1]
  rw [if_neg (by rw [List.length_append]; omega)]
  simp only [List.length_append]

/-- Claim C1 (amended) : `_update_env_buffer_and_predict` returns
`(None, 0.0)` exactly when the inference engine failed to initialize or the
post-append buffer holds fewer than `ENV_WINDOW_SAMPLES` samples; otherwise
it invokes the engine exactly once, on the most recent
`ENV_WINDOW_SAMPLES` samples of the buffer.  (The original claim also made
`None` depend on a wall-clock hop interval since the last inference; the
source keeps no timestamp and reads no clock, see the counterexample.) -/
theorem maybe_infer_characterization (model : List ℚ → List ℚ)
    (buf chunk : List ℚ) :
    updateEnvBufferAndPredict none buf chunk = ⟨buf, none, 0, 0⟩ ∧
    (updateEnvBufferAndPredict (some model) buf chunk).buffer =
      updateEnvBuffer buf chunk ∧
    ((updateEnvBuffer buf chunk).length < ENV_WINDOW_SAMPLES →
      updateEnvBufferAndPredict (some model) buf chunk =
        ⟨updateEnvBuffer buf chunk, none, 0, 0⟩) ∧
    (ENV_WINDOW_SAMPLES ≤ (updateEnvBuffer buf chunk).length →
      updateEnvBufferAndPredict (some model) buf chunk =
        ⟨updateEnvBuffer buf chunk,
         some (predictFromProbs (model ((updateEnvBuffer buf chunk).drop
           ((updateEnvBuffer buf chunk).length - ENV_WINDOW_SAMPLES)))).1,
         (predictFromProbs (model ((updateEnvBuffer buf chunk).drop
           ((updateEnvBuffer buf chunk).length - ENV_WINDOW_SAMPLES)))).2,
         1⟩) := by
  refine ⟨rfl, ?_, ?_, ?_⟩
  · simp only [updateEnvBufferAndPredict]
    split <;> rfl
  · intro h
    simp only [updateEnvBufferAndPredict]
    rw [if_pos h]
  · intro h
    simp only [updateEnvBufferAndPredict]
    rw [if_neg (not_lt.mpr h)]

/-- Witness for the amended C1, exercising both the short-buffer branch (a
single 1-sample chunk yields no inference) and the full-buffer branch (a
32000-sample buffer plus one 1024-sample frame yields exactly one inference
call). -/
theorem maybe_infer_characterization_witness :
    updateEnvBufferAndPredict (some fun _ => [(1 : ℚ)]) [] [0] =
      ⟨[0], none, 0, 0⟩ ∧
    (updateEnvBufferAndPredict (some fun _ => [(1 : ℚ)])
        (List.replicate ENV_WINDOW_SAMPLES (0 : ℚ))
        (List.replicate DEFAULT_CHUNK (0 : ℚ))).inferCalls = 1 := by
  have hb : updateEnvBuffer ([] : List ℚ) [0] = [0] := by
    simp [updateEnvBuffer, ENV_SAMPLES]
  constructor
  · have h := (maybe_infer_characterization (fun _ => [(1 : ℚ)]) [] [0]).2.2.1
      (by rw [hb]; norm_num [ENV_WINDOW_SAMPLES])
    rw [hb] at h
    exact h
  · have hfull : ENV_WINDOW_SAMPLES ≤
        (updateEnvBuffer (List.replicate ENV_WINDOW_SAMPLES (0 : ℚ))
          (List.replicate DEFAULT_CHUNK (0 : ℚ))).length := by
      rw [updateEnvBuffer_no_trim _ _ (by
        simp only [List.length_replicate]
        norm_num [ENV_SAMPLES, ENV_WINDOW_SAMPLES, DEFAULT_CHUNK])]
      simp only [List.length_append, List.length_replicate]
      omega
    have h := (maybe_infer_characterization (fun _ => [(1 : ℚ)])
      (List.replicate ENV_WINDOW_SAMPLES (0 : ℚ))
      (List.replicate DEFAULT_CHUNK (0 : ℚ))).2.2.2 hfull
    rw [h]

/-- Claim C1 counterexample: there is no hop-interval rate limit.  A frame
arrives roughly every `DEFAULT_CHUNK / DEFAULT_RATE = 64` ms, far less than
the 500 ms hop interval posited by the claim, yet with a full buffer two
consecutive frame calls BOTH invoke the inference engine (one call each):
the function keeps no timestamp and reads no clock, so inference runs on
every frame once the window is full, not at most once per hop interval. -/
theorem maybe_infer_no_hop_rate_limit :
    (updateEnvBufferAndPredict (some fun _ => [(9 : ℚ) / 10, 1 / 10])
        (List.replicate ENV_WINDOW_SAMPLES (0 : ℚ))
        (List.replicate DEFAULT_CHUNK (0 : ℚ))).inferCalls = 1 ∧
    (updateEnvBufferAndPredict (some fun _ => [(9 : ℚ) / 10, 1 / 10])
        (updateEnvBufferAndPredict (some fun _ => [(9 : ℚ) / 10, 1 / 10])
          (List.replicate ENV_WINDOW_SAMPLES (0 : ℚ))
          (List.replicate DEFAULT_CHUNK (0 : ℚ))).buffer
        (List.replicate DEFAULT_CHUNK (0 : ℚ))).inferCalls = 1 := by
  have h1 := updateEnvBufferAndPredict_full (fun _ => [(9 : ℚ) / 10, 1 / 10])
    (List.replicate ENV_WINDOW_SAMPLES (0 : ℚ))
    (List.replicate DEFAULT_CHUNK (0 : ℚ))
    (by simp only [List.length_replicate]
        norm_num [ENV_SAMPLES, ENV_WINDOW_SAMPLES, DEFAULT_CHUNK])
    (by simp only [List.length_replicate]; omega)
  have hbuf : (updateEnvBufferAndPredict (some fun _ => [(9 : ℚ) / 10, 1 / 10])
      (List.replicate ENV_WINDOW_SAMPLES (0 : ℚ))
      (List.replicate DEFAULT_CHUNK (0 : ℚ))).buffer =
      List.replicate ENV_WINDOW_SAMPLES (0 : ℚ) ++
        List.replicate DEFAULT_CHUNK (0 : ℚ) := by
    rw [h1]
  refine ⟨by rw [h1], ?_⟩
  rw [hbuf]
  have h2 := updateEnvBufferAndPredict_full (fun _ => [(9 : ℚ) / 10, 1 / 10])
    (List.replicate ENV_WINDOW_SAMPLES (0 : ℚ) ++
      List.replicate DEFAULT_CHUNK (0 : ℚ))
    (List.replicate DEFAULT_CHUNK (0 : ℚ))
    (by simp only [List.length_replicate, List.length_append]
        norm_num [ENV_SAMPLES, ENV_WINDOW_SAMPLES, DEFAULT_CHUNK])
    (by simp only [List.length_replicate, List.length_append]; omega)
  rw [h2]

/-! ## Claims about confidence gating and smoothing -/

lemma classifyAudioEnv_label_spec (envModel : Option (List ℚ → List ℚ))
    (buf : List ℚ) (soundType : SoundType) (rms : ℚ) (chunk : List ℚ) :
    (classifyAudioEnv envModel buf soundType rms chunk).2.1 = none ∨
    ∃ lab, (classifyAudioEnv envModel buf soundType rms chunk).2.1 = some lab ∧
      ENV_CONF_THRESHOLD ≤ (classifyAudioEnv envModel buf soundType rms chunk).2.2 := by
  simp only [classifyAudioEnv]
  split
  · cases hl : (updateEnvBufferAndPredict envModel buf chunk).label with
    | none => left; simp [hl]
    | some lab =>
      by_cases hc : ENV_CONF_THRESHOLD ≤
          (updateEnvBufferAndPredict envModel buf chunk).conf
      · right
        refine ⟨lab, ?_, ?_⟩ <;> simp [hl, hc]
      · left
        simp [hl, hc]
  · left
    rfl

/-- Claim C6: `classify_audio` never reports a specific environment label at
low confidence: whenever the emitted confidence is below
`ENV_CONF_THRESHOLD = 0.55` the emitted label is the unknown sentinel
(`env_label = None`), and a specific label is emitted only when the
confidence is at least the threshold. -/
theorem classify_audio_conf_gating (envModel : Option (List ℚ → List ℚ))
    (buf : List ℚ) (soundType : SoundType) (rms : ℚ) (chunk : List ℚ) :
    ((classifyAudioEnv envModel buf soundType rms chunk).2.2 < ENV_CONF_THRESHOLD →
      (classifyAudioEnv envModel buf soundType rms chunk).2.1 = none) ∧
    ∀ lab, (classifyAudioEnv envModel buf soundType rms chunk).2.1 = some lab →
      ENV_CONF_THRESHOLD ≤ (classifyAudioEnv envModel buf soundType rms chunk).2.2 := by
  rcases classifyAudioEnv_label_spec envModel buf soundType rms chunk with
    h | ⟨lab, hl, hc⟩
  · refine ⟨fun _ => h, fun lab2 hl2 => ?_⟩
    rw [h] at hl2
    cases hl2
  · exact ⟨fun hlt => absurd hc (not_le.mpr hlt), fun lab2 hl2 => hc⟩

set_option maxRecDepth 4000 in
/-- Witness for C6: a model answering the uniform low-confidence vector
`[1/2, 1/2]` over a full window makes `classify_audio` emit confidence 1/2,
below the 0.55 threshold, and therefore the unknown label. -/
theorem classify_audio_conf_gating_witness :
    (classifyAudioEnv (some fun _ => [(1 : ℚ) / 2, 1 / 2])
        (List.replicate ENV_WINDOW_SAMPLES (0 : ℚ)) .noise 1
        (List.replicate DEFAULT_CHUNK (0 : ℚ))).2.2 < ENV_CONF_THRESHOLD ∧
    (classifyAudioEnv (some fun _ => [(1 : ℚ) / 2, 1 / 2])
        (List.replicate ENV_WINDOW_SAMPLES (0 : ℚ)) .noise 1
        (List.replicate DEFAULT_CHUNK (0 : ℚ))).2.1 = none := by
  have hfull := updateEnvBufferAndPredict_full (fun _ => [(1 : ℚ) / 2, 1 / 2])
    (List.replicate ENV_WINDOW_SAMPLES (0 : ℚ))
    (List.replicate DEFAULT_CHUNK (0 : ℚ))
    (by simp only [List.length_replicate]
        norm_num [ENV_SAMPLES, ENV_WINDOW_SAMPLES, DEFAULT_CHUNK])
    (by simp only [List.length_replicate]; omega)
  have hpp : predictFromProbs [(1 : ℚ) / 2, 1 / 2] = ("cat", 1 / 2) := by
    norm_num [predictFromProbs, argmaxIdx, argmaxAux, ENV_CLASSES]
  have hconf : (classifyAudioEnv (some fun _ => [(1 : ℚ) / 2, 1 / 2])
      (List.replicate ENV_WINDOW_SAMPLES (0 : ℚ)) .noise 1
      (List.replicate DEFAULT_CHUNK (0 : ℚ))).2.2 = 1 / 2 := by
    unfold classifyAudioEnv
    rw [if_pos ⟨rfl, by simp, by norm_num [ENV_MIN_RMS]⟩]
    rw [hfull, hpp]
  have hlt : (classifyAudioEnv (some fun _ => [(1 : ℚ) / 2, 1 / 2])
      (List.replicate ENV_WINDOW_SAMPLES (0 : ℚ)) .noise 1
      (List.replicate DEFAULT_CHUNK (0 : ℚ))).2.2 < ENV_CONF_THRESHOLD := by
    rw [hconf]
    norm_num [ENV_CONF_THRESHOLD]
  exact ⟨hlt, (classify_audio_conf_gating _ _ _ _ _).1 hlt⟩

/-- Claim C2 counterexample: the pipeline keeps NO bounded FIFO of the last
`K` probability vectors.  Driving two successive predictions `probsA` (top
confidence 1) and `probsB` (top confidence 3/5) through the window, the
second emitted confidence is 3/5 — exactly the latest raw top-class
probability — whereas the smoothing the claim describes (elementwise mean of
the two-vector history, `K = 2`) would emit 4/5. -/
theorem classify_audio_no_history_counterexample :
    (updateEnvBufferAndPredict (some toyModel)
        (List.replicate ENV_WINDOW_SAMPLES (0 : ℚ))
        (List.replicate DEFAULT_CHUNK (0 : ℚ))).conf = 1 ∧
    (updateEnvBufferAndPredict (some toyModel)
        (updateEnvBufferAndPredict (some toyModel)
          (List.replicate ENV_WINDOW_SAMPLES (0 : ℚ))
          (List.replicate DEFAULT_CHUNK (0 : ℚ))).buffer
        (List.replicate DEFAULT_CHUNK ((1 : ℚ) / 2))).conf = 3 / 5 ∧
    specSmoothedLabelConf [probsA, probsB] = ("cat", 4 / 5) ∧
    ((3 : ℚ) / 5) ≠ 4 / 5 := by
  have hpA : predictFromProbs probsA = ("cat", 1) := by
    norm_num [predictFromProbs, probsA, argmaxIdx, argmaxAux, ENV_CLASSES]
  have hpB : predictFromProbs probsB = ("cat", 3 / 5) := by
    norm_num [predictFromProbs, probsB, argmaxIdx, argmaxAux, ENV_CLASSES]
  have h1 := updateEnvBufferAndPredict_full toyModel
    (List.replicate ENV_WINDOW_SAMPLES (0 : ℚ))
    (List.replicate DEFAULT_CHUNK (0 : ℚ))
    (by simp only [List.length_replicate]
        norm_num [ENV_SAMPLES, ENV_WINDOW_SAMPLES, DEFAULT_CHUNK])
    (by simp only [List.length_replicate]; omega)
  have hseg1 : toyModel ((List.replicate ENV_WINDOW_SAMPLES (0 : ℚ) ++
      List.replicate DEFAULT_CHUNK (0 : ℚ)).drop
        ((List.replicate ENV_WINDOW_SAMPLES (0 : ℚ)).length +
          (List.replicate DEFAULT_CHUNK (0 : ℚ)).length - ENV_WINDOW_SAMPLES)) =
      probsA := by
    unfold toyModel
    rw [if_neg]
    intro hmem
    rcases List.mem_append.mp (List.mem_of_mem_drop hmem) with h | h <;>
      · have h0 := List.eq_of_mem_replicate h
        norm_num at h0
  have hbuf : (updateEnvBufferAndPredict (some toyModel)
      (List.replicate ENV_WINDOW_SAMPLES (0 : ℚ))
      (List.replicate DEFAULT_CHUNK (0 : ℚ))).buffer =
      List.replicate ENV_WINDOW_SAMPLES (0 : ℚ) ++
        List.replicate DEFAULT_CHUNK (0 : ℚ) := by
    rw [h1]
  have h2 := updateEnvBufferAndPredict_full toyModel
    (List.replicate ENV_WINDOW_SAMPLES (0 : ℚ) ++
      List.replicate DEFAULT_CHUNK (0 : ℚ))
    (List.replicate DEFAULT_CHUNK ((1 : ℚ) / 2))
    (by simp only [List.length_replicate, List.length_append]
        norm_num [ENV_SAMPLES, ENV_WINDOW_SAMPLES, DEFAULT_CHUNK])
    (by simp only [List.length_replicate, List.length_append]; omega)
  have hseg2 : toyModel (((List.replicate ENV_WINDOW_SAMPLES (0 : ℚ) ++
      List.replicate DEFAULT_CHUNK (0 : ℚ)) ++
        List.replicate DEFAULT_CHUNK ((1 : ℚ) / 2)).drop
        ((List.replicate ENV_WINDOW_SAMPLES (0 : ℚ) ++
          List.replicate DEFAULT_CHUNK (0 : ℚ)).length +
          (List.replicate DEFAULT_CHUNK ((1 : ℚ) / 2)).length -
            ENV_WINDOW_SAMPLES)) = probsB := by
    unfold toyModel
    rw [List.drop_append_of_le_length (by
      simp only [List.length_replicate, List.length_append]
      norm_num [ENV_WINDOW_SAMPLES, DEFAULT_CHUNK])]
    rw [if_pos (List.mem_append.mpr (Or.inr (List.mem_replicate.mpr
      ⟨by norm_num [DEFAULT_CHUNK], rfl⟩)))]
  refine ⟨?_, ?_, ?_, by norm_num⟩
  · rw [h1, hseg1, hpA]
  · rw [hbuf, h2, hseg2, hpB]
  · norm_num [specSmoothedLabelConf, elementwiseMean, probsA, probsB,
      predictFromProbs, argmaxIdx, argmaxAux, ENV_CLASSES]

/-- Claim C2 amended: `classify_audio` keeps no probability history; each
new prediction is emitted with the raw top-class label and probability of
that single latest vector.  This coincides with the smoothing the
specification describes taken at history depth `K = 1`: the emitted
confidence equals the mean confidence of a one-element history, so
convergence to the class average is immediate and trivial. -/
theorem classify_audio_smoothing_depth_one (probs : List ℚ) :
    predictFromProbs probs = specSmoothedLabelConf [probs] := by
  unfold specSmoothedLabelConf elementwiseMean
  simp

end SoundDetect
